import Mathlib

/-!
Verification development for the PDFModule document-analysis pipeline
(`src/app/pipeline/pdf_pipeline.py` and its collaborators).

The pipeline splits page texts into chunks, builds an in-memory vector
index over the chunks, runs four retrieval-augmented aspect extractors
(title, summary, short summary, tags) against the index, and assembles a
`DocumentMetadata` record.

Python strings are modelled as `String` at the pipeline level; the
character-level helpers (`str.split`, `str.strip`, the chunker) work on
`List Char`.  The third-party collaborators that do not live in the
repository (the langchain `RecursiveCharacterTextSplitter`, the FAISS
vector store, the Ollama embedding/generation backend) are modelled from
the specification; every such definition carries a doc comment saying so.
-/

namespace PDFModule

/-! ### Python string helpers -/

/-- Python `s.split(sep)` for a one-character separator `sep`, on
character lists: `"".split(sep) = [""]`, separators at either end produce
empty fields, and the result is never the empty list. -/
def splitChar (sep : Char) : List Char → List (List Char)
  | [] => [[]]
  | c :: rest =>
    let r := splitChar sep rest
    if c = sep then
      [] :: r
    else
      match r with
      | [] => [[c]]
      | h :: t => (c :: h) :: t

/-- The character class removed by Python `str.strip()` (ASCII fragment;
the inputs handled by this pipeline are covered by it). -/
def isPySpace (c : Char) : Bool :=
  c = ' ' || c = '\t' || c = '\n' || c = '\r' || c = '\x0b' || c = '\x0c'

/-- Python `s.strip()` on character lists: drop leading and trailing
whitespace. -/
def pyStripCore (l : List Char) : List Char :=
  ((l.dropWhile isPySpace).reverse.dropWhile isPySpace).reverse

/-- Python `s.split(sep)` on `String`, one-character separator. -/
def pySplit (sep : Char) (s : String) : List String :=
  (splitChar sep s.toList).map String.mk

/-- Python `s.strip()` on `String`. -/
def pyStrip (s : String) : String :=
  String.mk (pyStripCore s.toList)

/-! ### The tags response parser

`src/app/pipeline/pdf_pipeline.py`, lines 130-132:

    tags_text = tags_text.split("\n")[-1]  # Only take the last part of the output
    return [tag.strip() for tag in tags_text.split(",")]
-/

/-- The parse step of `_generate_tags`: take the last line of the raw
response (`split("\n")[-1]`; `splitChar` never returns `[]`, so the
default of `getLastD` is never used), split it on commas, and strip each
item. -/
def parse_tags (tags_text : String) : List String :=
  let lastPart := (pySplit '\n' tags_text).getLastD ""
  (pySplit ',' lastPart).map pyStrip

/-! ### The chunker

`src/app/pipeline/pdf_pipeline.py`, lines 18-20, configures the splitter:

    self.text_splitter = RecursiveCharacterTextSplitter(
        chunk_size=1000, chunk_overlap=200
    )

The splitter itself is third-party langchain code, absent from the
repository; its behaviour is modelled from the spec (section 4.1). -/

/-- Modelled from the spec: the boundary classes the splitter prefers, in
priority order — paragraph break, then sentence break, then word break;
the raw-character fallback is the final case of `breakPoint`. -/
def paragraphSep : List Char := ['\n', '\n']

/-- Modelled from the spec: the sentence boundary. -/
def sentenceSep : List Char := ['.', ' ']

/-- Modelled from the spec: the word boundary. -/
def wordSep : List Char := [' ']

/-- Modelled from the spec: the largest position `p ≤ limit` such that an
occurrence of `sep` ends exactly at `p` (so a window cut at `p` ends with
the separator); `none` when no occurrence fits. -/
def bestBreak (sep : List Char) (text : List Char) (limit : Nat) : Option Nat :=
  ((List.range (limit + 1)).filter
    (fun p => decide (sep.length ≤ p) && sep.isPrefixOf (text.drop (p - sep.length)))).getLast?

/-- Modelled from the spec: the cut position for the next window — the
best paragraph boundary within the window if any, else the best sentence
boundary, else the best word boundary, else the raw character position
`cs` (split mid-token only when no good boundary exists). -/
def breakPoint (cs : Nat) (text : List Char) : Nat :=
  match bestBreak paragraphSep text cs with
  | some p => p
  | none =>
    match bestBreak sentenceSep text cs with
    | some p => p
    | none =>
      match bestBreak wordSep text cs with
      | some p => p
      | none => cs

/-- Modelled from the spec: split a text into windows of target size `cs`
with overlap `ov` between consecutive windows.  A text that already fits
in one window is returned whole; otherwise a window is cut at the best
available boundary and the rest (re-including the last `ov` characters of
the window as overlap) is split recursively.  Every recursive step drops
at least one character, so `fuel = text.length + 1` always suffices; the
fuel argument only makes the recursion structural. -/
def splitCore (cs ov : Nat) : Nat → List Char → List (List Char)
  | 0, _ => []
  | fuel + 1, text =>
    if text.length ≤ cs then
      [text]
    else
      let b := breakPoint cs text
      let window := text.take b
      let rest := text.drop (max (b - ov) 1)
      window :: splitCore cs ov fuel rest

/-- Modelled from the spec: the langchain `RecursiveCharacterTextSplitter`
as configured by the pipeline — only the chunk size and chunk overlap are
per-instance configuration. -/
structure RecursiveCharacterTextSplitter where
  chunk_size : Nat
  chunk_overlap : Nat
deriving DecidableEq

/-- Modelled from the spec: `text_splitter.split_text(page_content)`. -/
def RecursiveCharacterTextSplitter.split_text
    (self : RecursiveCharacterTextSplitter) (text : String) : List String :=
  (splitCore self.chunk_size self.chunk_overlap (text.toList.length + 1) text.toList).map
    String.mk

/-! ### Backend capabilities

`src/app/util/llm_provider.py` defines the `LLMProvider` interface with
one operation `generate(prompt) -> str`; `src/app/pipeline/pdf_pipeline.py`
pairs it with an `OllamaEmbeddings` object.  Both are boundaries to an
external backend (spec section 6): generation may fail (modelled as
`Except`), embedding returns a vector (modelled as `List Int`). -/

/-- The generation capability: `generate(prompt) -> text`, which may fail
with a backend error message (`llm_provider.py`, `LLMProvider.generate`). -/
structure LLMProvider where
  generate : String → Except String String

/-- Modelled from the spec: the `OllamaEmbeddings` object used by the
pipeline — an opaque deterministic embedding capability
`embed(text) -> vector of float`. -/
structure OllamaEmbeddings where
  embed : String → List Int

/-- The failure conditions a `process_document` call can surface.  The
constructors follow the spec's error taxonomy (section 7) where the code
has a matching behaviour: `emptyDocument` is the spec's `EmptyDocument`
kind (the pipeline code itself never raises it); `zeroChunkIndex` is the
error state of an index built from zero chunks; `indexOutOfRange` models
the Python `IndexError` of `pages[0]` on an empty list; `backendError`
carries a backend error message propagated unchanged out of an extractor
(the code attaches no aspect tag to it). -/
inductive PipeError where
  | emptyDocument
  | zeroChunkIndex
  | indexOutOfRange
  | backendError (msg : String)
deriving DecidableEq

/-- Equality of `Except` results is decidable when both component types
have decidable equality (used to evaluate pipeline runs on concrete
inputs). -/
instance {ε α : Type} [DecidableEq ε] [DecidableEq α] : DecidableEq (Except ε α) :=
  fun x y =>
    match x, y with
    | .error a, .error b =>
      if h : a = b then isTrue (by rw [h]) else
        isFalse (by intro hc; cases hc; exact h rfl)
    | .ok a, .ok b =>
      if h : a = b then isTrue (by rw [h]) else
        isFalse (by intro hc; cases hc; exact h rfl)
    | .error _, .ok _ => isFalse (by intro hc; cases hc)
    | .ok _, .error _ => isFalse (by intro hc; cases hc)

/-! ### The FAISS vector store

FAISS is a third-party library, absent from the repository; it is
modelled from the spec (section 4.2): build embeds every chunk and stores
the vectors alongside the chunk references; query embeds the query text,
ranks chunks by distance to the query vector, ties broken by original
chunk order, and returns the first `k`; `k` larger than the store returns
everything. -/

/-- Modelled from the spec: the built index — each chunk text with its
embedding vector, in original chunk order. -/
abbrev FAISS := List (String × List Int)

/-- Squared L2 distance between two embedding vectors. -/
def l2sq (u v : List Int) : Int :=
  (List.zipWith (fun a b => (a - b) * (a - b)) u v).sum

/-- Insertion of `x` into `l` by ascending integer key; `x` is placed
before the first element whose key is not smaller, so that inserting a
list element-by-element from the right is a stable sort. -/
def insertByKey {α : Type} (key : α → Int) (x : α) : List α → List α
  | [] => [x]
  | y :: ys => if key x ≤ key y then x :: y :: ys else y :: insertByKey key x ys

/-- Stable sort by ascending integer key (insertion sort): equal keys
keep their original relative order, so ties are broken by original chunk
order as the spec requires. -/
def sortByKey {α : Type} (key : α → Int) : List α → List α
  | [] => []
  | x :: xs => insertByKey key x (sortByKey key xs)

/-- Modelled from the spec: `FAISS.from_texts(texts=..., embedding=...)`.
Per the spec's section 3 invariant, an index built from zero chunks is an
error state, not a valid empty index. -/
def FAISS.from_texts (texts : List String) (embedding : OllamaEmbeddings) :
    Except PipeError FAISS :=
  if texts.isEmpty then
    .error .zeroChunkIndex
  else
    .ok (texts.map (fun t => (t, embedding.embed t)))

/-- Modelled from the spec: `vectorstore.similarity_search(query, k=k)` —
embed the query with the same embedding capability used at build time,
rank the stored chunks by distance to the query vector (stable, so ties
go to the earlier chunk), return the texts of the first `k`. -/
def FAISS.similarity_search (vs : FAISS) (embedding : OllamaEmbeddings)
    (query : String) (k : Nat) : List String :=
  let qv := embedding.embed query
  ((sortByKey (fun p => l2sq qv p.2) vs).take k).map (fun p => p.1)

/-! ### Result record

`src/app/models/schemas.py`. -/

/-- `DocumentMetadata` (`schemas.py`): the assembled result record. -/
structure DocumentMetadata where
  title : String
  summary : String
  short_summary : String
  tags : List String
deriving DecidableEq

/-! ### The analysis pipeline

`src/app/pipeline/pdf_pipeline.py`, class `PDFAnalysisPipeline`.  Pages
are modelled by their `page_content` string. -/

/-- `PDFAnalysisPipeline`: holds the generation provider, the embedding
capability derived from it, and the configured text splitter. -/
structure PDFAnalysisPipeline where
  llm_provider : LLMProvider
  embeddings : OllamaEmbeddings
  text_splitter : RecursiveCharacterTextSplitter

/-- `PDFAnalysisPipeline.__init__` (lines 13-20): store the provider and
its embeddings, and configure the splitter with `chunk_size=1000,
chunk_overlap=200`. -/
def PDFAnalysisPipeline.init (llm_provider : LLMProvider)
    (embeddings : OllamaEmbeddings) : PDFAnalysisPipeline :=
  { llm_provider := llm_provider
    embeddings := embeddings
    text_splitter := { chunk_size := 1000, chunk_overlap := 200 } }

/-- The retrieval query of `_generate_title` (line 49). -/
def titleQuery : String :=
  "Was ist der Haupttitel oder das Hauptthema dieses Dokuments?"

/-- The retrieval query of `_generate_summary` (line 70). -/
def summaryQuery : String :=
  "Was sind die wichtigsten Inhalte und Hauptpunkte des Dokuments?"

/-- The retrieval query of `_generate_short_summary` (line 95). -/
def shortSummaryQuery : String :=
  "Was sind die absolut wichtigsten Kernaussagen?"

/-- The retrieval query of `_generate_tags` (line 114). -/
def tagsQuery : String :=
  "Was sind die Hauptthemen und -inhalte?"

/-- The f-string prompt of `_generate_title` (lines 53-62). -/
def titlePrompt (combined_text : String) : String :=
  "\n        Du bist ein erfahrener Dokumentenanalytiker. Analysiere den folgenden Textauszug und erzeuge einen prägnanten und relevanten Titel für das Dokument.\n\n        Textauszug:\n        "
    ++ combined_text
    ++ "\n        \n        # Ausgabeanforderungen\n        - Gib nur den Titel zurück, bestehend aus maximal 10 Wörtern.\n        - Der Titel muss ohne Einleitung, zusätzliche Texte oder Erklärungen sein.\n        "

/-- The f-string prompt of `_generate_summary` (lines 74-85). -/
def summaryPrompt (combined_text : String) : String :=
  "\n        Du bist ein Experte für Inhaltszusammenfassungen. Erstelle auf Basis der folgenden Textabschnitte eine umfassende Zusammenfassung des Dokuments.\n\n        Textauszüge:\n        "
    ++ combined_text
    ++ "\n        \n        # Ausgabeanforderungen\n        - Gib eine ausführliche Zusammenfassung im Fließtext zurück (200-300 Wörter).\n        - Die Zusammenfassung soll den Dokumenttyp, Hauptthemen und Schlüsselpunkte identifizieren und wichtige Ergebnisse zusammenfassen.\n        - Gib nur die Zusammenfassung ohne zusätzliche Erklärungen oder Einleitungen zurück.\n        "

/-- The f-string prompt of `_generate_short_summary` (lines 99-108). -/
def shortSummaryPrompt (combined_text : String) : String :=
  "\n        Erstelle eine kurze Zusammenfassung der zentralen Inhalte auf Basis der folgenden Textauszüge.\n\n        Textauszüge:\n        "
    ++ combined_text
    ++ "\n        \n        # Ausgabeanforderungen\n        - Fasse die zentralen Inhalte in 2-3 Sätzen zusammen (maximal 50 Wörter).\n        - Gib nur die Zusammenfassung zurück, ohne Einleitungen, Anmerkungen oder weitere Erklärungen.\n        "

/-- The f-string prompt of `_generate_tags` (lines 118-127). -/
def tagsPrompt (combined_text : String) : String :=
  "\n        Basierend auf den folgenden Textabschnitten, erzeuge eine Liste relevanter Schlagwörter, die die Hauptthemen und Inhalte des Dokuments beschreiben.\n\n        Textauszüge:\n        "
    ++ combined_text
    ++ "\n        \n        # Ausgabeanforderungen\n        - Gib nur die Schlagwörter als durch Kommas getrennte Liste zurück (5-8 Schlagwörter).\n        - Die Ausgabe soll nur die Schlagwörter enthalten, ohne Einleitungen, Erklärungen oder andere Texte.\n        "

/-- `_generate_title` (lines 45-64): retrieve the top-2 chunks for the
title query, join them with newlines, prompt the generation backend.
`example_text` is accepted and never used, as in the source. -/
def PDFAnalysisPipeline._generate_title (self : PDFAnalysisPipeline)
    (vectorstore : FAISS) (example_text : String) : Except String String :=
  let relevant_chunks := vectorstore.similarity_search self.embeddings titleQuery 2
  let combined_text := String.intercalate "\n" relevant_chunks
  self.llm_provider.generate (titlePrompt combined_text)

/-- `_generate_summary` (lines 66-87): top-5 chunks for the summary
query. -/
def PDFAnalysisPipeline._generate_summary (self : PDFAnalysisPipeline)
    (vectorstore : FAISS) (example_text : String) : Except String String :=
  let relevant_chunks := vectorstore.similarity_search self.embeddings summaryQuery 5
  let combined_text := String.intercalate "\n" relevant_chunks
  self.llm_provider.generate (summaryPrompt combined_text)

/-- `_generate_short_summary` (lines 89-109): top-3 chunks for the
short-summary query. -/
def PDFAnalysisPipeline._generate_short_summary (self : PDFAnalysisPipeline)
    (vectorstore : FAISS) (example_text : String) : Except String String :=
  let relevant_chunks := vectorstore.similarity_search self.embeddings shortSummaryQuery 3
  let combined_text := String.intercalate "\n" relevant_chunks
  self.llm_provider.generate (shortSummaryPrompt combined_text)

/-- `_generate_tags` (lines 111-132): top-3 chunks for the tags query,
then the parse step of `parse_tags`. -/
def PDFAnalysisPipeline._generate_tags (self : PDFAnalysisPipeline)
    (vectorstore : FAISS) (example_text : String) : Except String (List String) :=
  let relevant_chunks := vectorstore.similarity_search self.embeddings tagsQuery 3
  let combined_text := String.intercalate "\n" relevant_chunks
  match self.llm_provider.generate (tagsPrompt combined_text) with
  | .error e => .error e
  | .ok tags_text => .ok (parse_tags tags_text)

/-- `process_document` (lines 22-43): split every page into chunks, build
one FAISS index over all chunks, run the four aspect extractors (the
source awaits them one after the other), assemble `DocumentMetadata`.
The source has no empty-document check: with an empty page list it
reaches the zero-chunk index build; `pages[0]` (reached only after a
successful build) is modelled by `head?` with the `indexOutOfRange`
error.  A failing extractor's backend error is wrapped as
`PipeError.backendError` — identically for all four aspects, since the
source lets the provider's exception propagate untagged. -/
def PDFAnalysisPipeline.process_document (self : PDFAnalysisPipeline)
    (pages : List String) : Except PipeError DocumentMetadata := do
  let all_text_chunks := pages.flatMap (fun page => self.text_splitter.split_text page)
  let vectorstore ← FAISS.from_texts all_text_chunks self.embeddings
  let page0 ← match pages.head? with
    | some p => Except.ok p
    | none => Except.error PipeError.indexOutOfRange
  let title ← (self._generate_title vectorstore page0).mapError PipeError.backendError
  let summary ← (self._generate_summary vectorstore page0).mapError PipeError.backendError
  let short_summary ← (self._generate_short_summary vectorstore page0).mapError PipeError.backendError
  let tags ← (self._generate_tags vectorstore page0).mapError PipeError.backendError
  return { title := title, summary := summary, short_summary := short_summary, tags := tags }

/-! ### Concrete instances used to evaluate the pipeline on closed inputs -/

/-- An embedding capability that maps every text to the empty vector. -/
def embW : OllamaEmbeddings := ⟨fun _ => []⟩

/-- A generation backend that answers every prompt with `"ok"`. -/
def okProvider : LLMProvider := ⟨fun _ => Except.ok "ok"⟩

/-- A generation backend that fails exactly on the summary aspect's
prompt for the one-chunk context `"a"`. -/
def failSummaryProvider : LLMProvider :=
  ⟨fun p => if p = summaryPrompt "a" then Except.error "backend down" else Except.ok "ok"⟩

/-- A generation backend that fails exactly on the tags aspect's prompt
for the one-chunk context `"a"`. -/
def failTagsProvider : LLMProvider :=
  ⟨fun p => if p = tagsPrompt "a" then Except.error "backend down" else Except.ok "ok"⟩

/-- The pipeline over the always-succeeding backend. -/
def pipeOk : PDFAnalysisPipeline := PDFAnalysisPipeline.init okProvider embW

/-- The pipeline whose backend fails on the summary call. -/
def pipeFailSummary : PDFAnalysisPipeline :=
  PDFAnalysisPipeline.init failSummaryProvider embW

/-- The pipeline whose backend fails on the tags call. -/
def pipeFailTags : PDFAnalysisPipeline :=
  PDFAnalysisPipeline.init failTagsProvider embW

/-- The index built over the single chunk of the one-page document
`["a"]` with `embW`. -/
def vsA : FAISS := [("a", [])]

/-- A two-chunk index. -/
def vs2 : FAISS := [("a", []), ("b", [])]

/-- A five-chunk index. -/
def vs5 : FAISS := [("c1", []), ("c2", []), ("c3", []), ("c4", []), ("c5", [])]

/-! ## Lemmas -/

/-! ### Python split -/

theorem splitChar_ne_nil (sep : Char) (l : List Char) :
    splitChar sep l ≠ [] := by
  induction l with
  | nil => simp [splitChar]
  | cons c rest ih =>
    simp only [splitChar]
    by_cases h : c = sep
    · simp [h]
    · simp only [h, if_false]
      cases hr : splitChar sep rest with
      | nil => simp
      | cons a t => simp

theorem splitChar_length (sep : Char) (l : List Char) :
    (splitChar sep l).length = l.count sep + 1 := by
  induction l with
  | nil => simp [splitChar]
  | cons c rest ih =>
    simp only [splitChar]
    by_cases h : c = sep
    · simp [h, List.count_cons, ih]
    · simp only [h, if_false]
      cases hr : splitChar sep rest with
      | nil => exact absurd hr (splitChar_ne_nil sep rest)
      | cons a t =>
        simp only [List.length_cons]
        rw [hr] at ih
        simp only [List.length_cons] at ih
        have hcount : (c :: rest).count sep = rest.count sep := by
          simp [List.count_cons, h, Ne.symm]
        omega

/-- Splitting on a separator that occurs in the list: everything before
the last occurrence of the separator does not influence the last field. -/
theorem splitChar_getLast?_append (sep : Char) (a b : List Char) :
    (splitChar sep (a ++ sep :: b)).getLast? = (splitChar sep b).getLast? := by
  induction a with
  | nil =>
    simp only [List.nil_append, splitChar, if_pos rfl]
    cases hr : splitChar sep b with
    | nil => exact absurd hr (splitChar_ne_nil sep b)
    | cons h t => simp [List.getLast?_cons]
  | cons c a' ih =>
    simp only [List.cons_append, splitChar]
    by_cases h : c = sep
    · simp only [h, if_pos rfl]
      cases hr : splitChar sep (a' ++ sep :: b) with
      | nil => exact absurd hr (splitChar_ne_nil sep (a' ++ sep :: b))
      | cons x t =>
        rw [hr] at ih
        simp [List.getLast?_cons, ← ih]
    · simp only [h, if_false]
      have hlen : (splitChar sep (a' ++ sep :: b)).length =
          (a' ++ sep :: b).count sep + 1 := splitChar_length sep _
      have hmem : sep ∈ a' ++ sep :: b := by simp
      have hcount : 1 ≤ (a' ++ sep :: b).count sep :=
        List.one_le_count_iff.mpr hmem
      cases hr : splitChar sep (a' ++ sep :: b) with
      | nil => exact absurd hr (splitChar_ne_nil sep (a' ++ sep :: b))
      | cons x t =>
        rw [hr] at ih hlen
        cases t with
        | nil =>
          simp only [List.length_cons, List.length_nil] at hlen
          omega
        | cons y t' => simpa using ih

/-- `getLastD` commutes with `map` on a nonempty list. -/
theorem getLastD_map_of_ne_nil {α β : Type} (f : α → β) (r : List α)
    (h : r ≠ []) (d : β) (d' : α) :
    (r.map f).getLastD d = f (r.getLastD d') := by
  rw [List.getLastD_eq_getLast?, List.getLastD_eq_getLast?, List.getLast?_map]
  cases hr : r.getLast? with
  | none => exact absurd (List.getLast?_eq_none_iff.mp hr) h
  | some x => simp

/-! ### Python strip -/

theorem pyStripCore_eq_rdropWhile (l : List Char) :
    pyStripCore l = List.rdropWhile isPySpace (l.dropWhile isPySpace) := rfl

theorem pyStripCore_idempotent (l : List Char) :
    pyStripCore (pyStripCore l) = pyStripCore l := by
  rw [pyStripCore_eq_rdropWhile, pyStripCore_eq_rdropWhile]
  set x := l.dropWhile isPySpace with hx
  have hxself : x.dropWhile isPySpace = x := List.dropWhile_idempotent _ _
  set m := List.rdropWhile isPySpace x with hm
  have hpre : m <+: x := List.rdropWhile_prefix _ _
  have hmself : m.dropWhile isPySpace = m := by
    rw [List.dropWhile_eq_self_iff]
    intro hl
    have hlt : 0 < x.length := lt_of_lt_of_le hl hpre.length_le
    have hget : m.get ⟨0, hl⟩ = x.get ⟨0, hlt⟩ := by
      simpa [List.get_eq_getElem] using hpre.getElem hl
    rw [hget]
    exact List.dropWhile_eq_self_iff.mp hxself hlt
  rw [hmself, hm]
  exact List.rdropWhile_idempotent _ _

theorem pyStrip_idempotent (s : String) : pyStrip (pyStrip s) = pyStrip s := by
  unfold pyStrip
  rw [show (String.mk (pyStripCore s.toList)).toList = pyStripCore s.toList from rfl,
    pyStripCore_idempotent]

/-! ### The tags parser -/

/-- The last line of a response, at the character level. -/
theorem parse_tags_last_line (a b : String) :
    parse_tags (a ++ "\n" ++ b) = parse_tags b := by
  unfold parse_tags pySplit
  have hdata : (a ++ "\n" ++ b).toList = a.toList ++ '\n' :: b.toList := by
    simp [String.toList, String.data_append]
  rw [hdata]
  have h1 := splitChar_getLast?_append '\n' a.toList b.toList
  have hne1 := splitChar_ne_nil '\n' (a.toList ++ '\n' :: b.toList)
  have hne2 := splitChar_ne_nil '\n' b.toList
  rw [getLastD_map_of_ne_nil String.mk _ hne1 "" [],
    getLastD_map_of_ne_nil String.mk _ hne2 "" []]
  rw [List.getLastD_eq_getLast?, List.getLastD_eq_getLast?, h1]

theorem parse_tags_length (s : String) :
    (parse_tags s).length =
      ((splitChar '\n' s.toList).getLastD []).count ',' + 1 := by
  unfold parse_tags pySplit
  rw [getLastD_map_of_ne_nil String.mk _ (splitChar_ne_nil '\n' s.toList) "" []]
  rw [List.length_map, List.length_map,
    show (String.mk ((splitChar '\n' s.toList).getLastD [])).toList =
      (splitChar '\n' s.toList).getLastD [] from rfl,
    splitChar_length]

theorem parse_tags_trimmed (s t : String) (h : t ∈ parse_tags s) :
    pyStrip t = t := by
  unfold parse_tags at h
  obtain ⟨r, _, hr⟩ := List.mem_map.mp h
  rw [← hr, pyStrip_idempotent]

/-! ### Sorting and similarity search -/

theorem insertByKey_perm {α : Type} (key : α → Int) (x : α) (l : List α) :
    List.Perm (insertByKey key x l) (x :: l) := by
  induction l with
  | nil => exact List.Perm.refl _
  | cons y ys ih =>
    simp only [insertByKey]
    by_cases h : key x ≤ key y
    · rw [if_pos h]
    · rw [if_neg h]
      exact (ih.cons y).trans (List.Perm.swap x y ys)

theorem sortByKey_perm {α : Type} (key : α → Int) (l : List α) :
    List.Perm (sortByKey key l) l := by
  induction l with
  | nil => exact List.Perm.refl _
  | cons x xs ih =>
    exact (insertByKey_perm key x (sortByKey key xs)).trans (ih.cons x)

theorem sortByKey_length {α : Type} (key : α → Int) (l : List α) :
    (sortByKey key l).length = l.length :=
  (sortByKey_perm key l).length_eq

/-- A similarity query returns `min k n` chunks, where `n` is the number
of indexed chunks: `k` of them when the index is large enough, everything
otherwise, and never an error. -/
theorem similarity_search_length (vs : FAISS) (embedding : OllamaEmbeddings)
    (query : String) (k : Nat) :
    (vs.similarity_search embedding query k).length = min k (List.length vs) := by
  simp [FAISS.similarity_search, sortByKey_length]

/-! ### The chunker -/

theorem bestBreak_le {sep text : List Char} {limit p : Nat}
    (h : bestBreak sep text limit = some p) : p ≤ limit := by
  have hm := List.mem_of_getLast?_eq_some h
  have hr := (List.mem_filter.mp hm).1
  have := List.mem_range.mp hr
  omega

theorem breakPoint_le (cs : Nat) (text : List Char) : breakPoint cs text ≤ cs := by
  unfold breakPoint
  cases h1 : bestBreak paragraphSep text cs with
  | some p => exact bestBreak_le h1
  | none =>
    cases h2 : bestBreak sentenceSep text cs with
    | some p => exact bestBreak_le h2
    | none =>
      cases h3 : bestBreak wordSep text cs with
      | some p => exact bestBreak_le h3
      | none => exact Nat.le_refl cs

/-- Every window the splitter emits fits in the configured chunk size. -/
theorem splitCore_bound (cs ov : Nat) :
    ∀ (fuel : Nat) (text : List Char), ∀ c ∈ splitCore cs ov fuel text,
      c.length ≤ cs := by
  intro fuel
  induction fuel with
  | zero => intro text c hc; simp [splitCore] at hc
  | succ n ih =>
    intro text c hc
    simp only [splitCore] at hc
    by_cases h : text.length ≤ cs
    · rw [if_pos h] at hc
      simp only [List.mem_singleton] at hc
      exact hc ▸ h
    · rw [if_neg h] at hc
      rcases List.mem_cons.mp hc with hceq | hmem
      · subst hceq
        rw [List.length_take]
        have := breakPoint_le cs text
        omega
      · exact ih _ _ hmem

theorem split_text_bound (ts : RecursiveCharacterTextSplitter) (page : String)
    (chunk : String) (h : chunk ∈ ts.split_text page) :
    chunk.length ≤ ts.chunk_size := by
  unfold RecursiveCharacterTextSplitter.split_text at h
  obtain ⟨l, hl, hchunk⟩ := List.mem_map.mp h
  have := splitCore_bound ts.chunk_size ts.chunk_overlap _ _ _ hl
  rw [← hchunk]
  exact this

/-- A page that fits in one window is returned whole, as a single
chunk. -/
theorem split_text_short (ts : RecursiveCharacterTextSplitter) (page : String)
    (h : page.length ≤ ts.chunk_size) : ts.split_text page = [page] := by
  unfold RecursiveCharacterTextSplitter.split_text
  have hlen : page.toList.length ≤ ts.chunk_size := h
  simp only [splitCore, if_pos hlen, List.map]
  rfl

/-! ## Claims -/

/-- Claim C1, counterexample.  The claim says the empty page list fails
with an explicit `EmptyDocument` condition; in the code there is no such
check: `process_document` proceeds to the zero-chunk index build, and the
failure that surfaces is the index build's error, which is not the
`EmptyDocument` condition. -/
theorem c1_counterexample :
    pipeOk.process_document [] = Except.error PipeError.zeroChunkIndex ∧
      PipeError.zeroChunkIndex ≠ PipeError.emptyDocument :=
  ⟨rfl, by decide⟩

/-- Claim C1, amended.  For the empty page list, `process_document`
fails — for every backend, so no generation call can have influenced the
outcome — but with the zero-chunk index build's error state, not with an
explicit `EmptyDocument` condition. -/
theorem c1_amended (pipe : PDFAnalysisPipeline) :
    pipe.process_document [] = Except.error PipeError.zeroChunkIndex := rfl

set_option maxRecDepth 10000 in
/-- Claim C2, counterexample.  The claim says a generation failure
identifies which aspect failed.  Two pipelines whose backends fail on
different aspects (summary vs. tags) produce identical `process_document`
outcomes on the same document, so the surfaced failure cannot identify
the failing aspect. -/
theorem c2_counterexample :
    pipeFailSummary.llm_provider.generate (summaryPrompt "a") =
        Except.error "backend down" ∧
      pipeFailTags.llm_provider.generate (summaryPrompt "a") = Except.ok "ok" ∧
      pipeFailTags.llm_provider.generate (tagsPrompt "a") =
        Except.error "backend down" ∧
      pipeFailSummary.process_document ["a"] = pipeFailTags.process_document ["a"] :=
  ⟨by decide, by decide, by decide, by decide⟩

/-- Claim C2, amended.  If the generation call for any one of the four
aspects fails, the whole `process_document` call fails with the backend's
error propagated as an untagged `backendError` — the first failing
aspect's error in run order — and no `DocumentMetadata` is returned even
if other aspect extractions succeeded: the first four conjuncts give the
exact outcome for a failure of the title, summary, short-summary and tags
aspect respectively, and the last conjunct says a returned metadata
record requires all four generation calls to have succeeded. -/
theorem c2_amended (pipe : PDFAnalysisPipeline) (pages : List String)
    (vs : FAISS) (page0 : String)
    (h1 : FAISS.from_texts
        (pages.flatMap (fun page => pipe.text_splitter.split_text page))
        pipe.embeddings = Except.ok vs)
    (h2 : pages.head? = some page0) :
    (∀ e : String, pipe._generate_title vs page0 = Except.error e →
        pipe.process_document pages = Except.error (PipeError.backendError e)) ∧
      (∀ t e : String, pipe._generate_title vs page0 = Except.ok t →
        pipe._generate_summary vs page0 = Except.error e →
        pipe.process_document pages = Except.error (PipeError.backendError e)) ∧
      (∀ t s e : String, pipe._generate_title vs page0 = Except.ok t →
        pipe._generate_summary vs page0 = Except.ok s →
        pipe._generate_short_summary vs page0 = Except.error e →
        pipe.process_document pages = Except.error (PipeError.backendError e)) ∧
      (∀ t s ss e : String, pipe._generate_title vs page0 = Except.ok t →
        pipe._generate_summary vs page0 = Except.ok s →
        pipe._generate_short_summary vs page0 = Except.ok ss →
        pipe._generate_tags vs page0 = Except.error e →
        pipe.process_document pages = Except.error (PipeError.backendError e)) ∧
      ∀ md : DocumentMetadata, pipe.process_document pages = Except.ok md →
        (∃ t, pipe._generate_title vs page0 = Except.ok t) ∧
          (∃ s, pipe._generate_summary vs page0 = Except.ok s) ∧
          (∃ ss, pipe._generate_short_summary vs page0 = Except.ok ss) ∧
          ∃ tg, pipe._generate_tags vs page0 = Except.ok tg := by
  refine ⟨?_, ?_, ?_, ?_, ?_⟩
  · intro e ht
    unfold PDFAnalysisPipeline.process_document
    simp only [h1, h2, ht, Except.mapError, Bind.bind, Except.bind]
  · intro t e ht hs
    unfold PDFAnalysisPipeline.process_document
    simp only [h1, h2, ht, hs, Except.mapError, Bind.bind, Except.bind]
  · intro t s e ht hs hss
    unfold PDFAnalysisPipeline.process_document
    simp only [h1, h2, ht, hs, hss, Except.mapError, Bind.bind, Except.bind]
  · intro t s ss e ht hs hss htg
    unfold PDFAnalysisPipeline.process_document
    simp only [h1, h2, ht, hs, hss, htg, Except.mapError, Bind.bind, Except.bind]
  · intro md hmd
    unfold PDFAnalysisPipeline.process_document at hmd
    simp only [h1, h2, Bind.bind, Except.bind] at hmd
    cases ht : pipe._generate_title vs page0 with
    | error e => rw [ht] at hmd; simp [Except.mapError] at hmd
    | ok t =>
      rw [ht] at hmd
      simp only [Except.mapError] at hmd
      cases hs : pipe._generate_summary vs page0 with
      | error e => rw [hs] at hmd; simp [Except.mapError] at hmd
      | ok s =>
        rw [hs] at hmd
        simp only [Except.mapError] at hmd
        cases hss : pipe._generate_short_summary vs page0 with
        | error e => rw [hss] at hmd; simp [Except.mapError] at hmd
        | ok ss =>
          rw [hss] at hmd
          simp only [Except.mapError] at hmd
          cases htg : pipe._generate_tags vs page0 with
          | error e => rw [htg] at hmd; simp [Except.mapError] at hmd
          | ok tg =>
            exact ⟨⟨t, rfl⟩, ⟨s, rfl⟩, ⟨ss, rfl⟩, ⟨tg, rfl⟩⟩

set_option maxRecDepth 10000 in
/-- Claim C2, witness for the amended theorem at a concrete run: the
backend fails on the summary prompt after the title call succeeded. -/
theorem c2_amended_witness :
    (FAISS.from_texts
        (["a"].flatMap (fun page => pipeFailSummary.text_splitter.split_text page))
        pipeFailSummary.embeddings = Except.ok vsA ∧
      ["a"].head? = some "a" ∧
      pipeFailSummary._generate_title vsA "a" = Except.ok "ok" ∧
      pipeFailSummary._generate_summary vsA "a" = Except.error "backend down") ∧
    pipeFailSummary.process_document ["a"] =
      Except.error (PipeError.backendError "backend down") :=
  ⟨⟨by decide, by decide, by decide, by decide⟩,
    (c2_amended pipeFailSummary ["a"] vsA "a" (by decide) (by decide)).2.1
      "ok" "backend down" (by decide) (by decide)⟩

/-- Claim C3, counterexample.  The claim says the parser takes the last
non-empty line and drops empty items, so no empty-string entry is ever
returned.  The code takes the last line even when it is empty and keeps
empty items: `"Urban,,Design"` parses with an empty middle entry, and a
response ending in a newline parses to `[""]`. -/
theorem c3_counterexample :
    parse_tags "Urban,,Design" = ["Urban", "", "Design"] ∧
      "" ∈ parse_tags "Urban,,Design" ∧
      parse_tags "Urban, Design\n" = [""] :=
  ⟨by decide, by decide, by decide⟩

/-- Claim C3, amended.  The parser takes the last line of the response —
empty or not — splits it on commas keeping empty items (the output has
exactly one entry per comma plus one), and trims each item (every
returned entry is unchanged by a further strip); it may therefore return
empty-string entries. -/
theorem c3_amended :
    (∀ a b : String, parse_tags (a ++ "\n" ++ b) = parse_tags b) ∧
      (∀ s : String,
        (parse_tags s).length =
          ((splitChar '\n' s.toList).getLastD []).count ',' + 1) ∧
      ∀ s t : String, t ∈ parse_tags s → pyStrip t = t :=
  ⟨parse_tags_last_line, parse_tags_length, parse_tags_trimmed⟩

/-- Claim C3, witness for the amended theorem: a returned tag is already
stripped. -/
theorem c3_amended_witness :
    ("b" ∈ parse_tags "a, b") ∧ pyStrip "b" = "b" :=
  ⟨by decide, c3_amended.2.2 "a, b" "b" (by decide)⟩

/-- Claim C4: on the raw backend response
`"Some preamble.\nUrban, Architecture, History, Design"` the tags parser
returns exactly `["Urban", "Architecture", "History", "Design"]` — the
preamble line is discarded and each item is trimmed. -/
theorem c4_tags_example :
    parse_tags "Some preamble.\nUrban, Architecture, History, Design" =
      ["Urban", "Architecture", "History", "Design"] := by decide

/-- Claim C5: the pipeline's splitter is configured with target window
size 1000 and overlap 200, and every window it emits fits in the
1000-character target; the boundary preference (paragraph, then
sentence, then word, then raw character) is the `breakPoint` priority of
the spec-modelled splitter. -/
theorem c5_chunker_config (p : LLMProvider) (e : OllamaEmbeddings) :
    (PDFAnalysisPipeline.init p e).text_splitter.chunk_size = 1000 ∧
      (PDFAnalysisPipeline.init p e).text_splitter.chunk_overlap = 200 ∧
      ∀ page chunk : String,
        chunk ∈ (PDFAnalysisPipeline.init p e).text_splitter.split_text page →
          chunk.length ≤ 1000 :=
  ⟨rfl, rfl, fun page chunk h => split_text_bound _ page chunk h⟩

/-- Claim C5, witness: a concrete page and emitted chunk. -/
theorem c5_chunker_config_witness :
    ("hi" ∈ (PDFAnalysisPipeline.init okProvider embW).text_splitter.split_text "hi") ∧
      ("hi" : String).length ≤ 1000 :=
  ⟨by decide, (c5_chunker_config okProvider embW).2.2 "hi" "hi" (by decide)⟩

/-- Claim C6: a page shorter than the window size (1000 characters)
yields exactly one chunk, equal to the page's full text. -/
theorem c6_short_page (p : LLMProvider) (e : OllamaEmbeddings) (page : String)
    (h : page.length < 1000) :
    (PDFAnalysisPipeline.init p e).text_splitter.split_text page = [page] :=
  split_text_short _ page (Nat.le_of_lt h)

/-- Claim C6, witness at a concrete short page. -/
theorem c6_short_page_witness :
    (("hallo" : String).length < 1000) ∧
      (PDFAnalysisPipeline.init okProvider embW).text_splitter.split_text "hallo" =
        ["hallo"] :=
  ⟨by decide, c6_short_page okProvider embW "hallo" (by decide)⟩

/-- Claim C7: when the requested result count `k` exceeds the number of
indexed chunks, the similarity query returns exactly all indexed chunks,
each exactly once (a permutation of the stored chunk texts), and —
being a total function — without raising an error. -/
theorem c7_query_k_exceeds (e : OllamaEmbeddings) (vs : FAISS) (q : String)
    (k : Nat) (h : List.length vs < k) :
    List.Perm (vs.similarity_search e q k) (vs.map (fun p => p.1)) := by
  have hlen : (sortByKey (fun p => l2sq (e.embed q) p.2) vs).length ≤ k := by
    rw [sortByKey_length]; omega
  simp only [FAISS.similarity_search]
  rw [List.take_of_length_le hlen]
  exact (sortByKey_perm _ vs).map _

/-- Claim C7, witness: querying a two-chunk index with `k = 3`. -/
theorem c7_query_k_exceeds_witness :
    (List.length vs2 < 3) ∧
      List.Perm (vs2.similarity_search embW "q" 3) (vs2.map (fun p => p.1)) :=
  ⟨by decide, c7_query_k_exceeds embW vs2 "q" 3 (by decide)⟩

/-- Claim C8: the aspect extractors retrieve exactly the chunk counts of
their configuration — `k = 2` for title, `k = 5` for summary, `k = 3`
for short summary, `k = 3` for tags (given at least 5 indexed chunks,
so no retrieval is capped) — and each extractor prompts the backend with
the context joined from exactly that retrieval. -/
theorem c8_aspect_ks (pipe : PDFAnalysisPipeline) (vs : FAISS) (ex : String)
    (h : 5 ≤ List.length vs) :
    ((vs.similarity_search pipe.embeddings titleQuery 2).length = 2 ∧
      (vs.similarity_search pipe.embeddings summaryQuery 5).length = 5 ∧
      (vs.similarity_search pipe.embeddings shortSummaryQuery 3).length = 3 ∧
      (vs.similarity_search pipe.embeddings tagsQuery 3).length = 3) ∧
    (pipe._generate_title vs ex =
        pipe.llm_provider.generate (titlePrompt (String.intercalate "\n"
          (vs.similarity_search pipe.embeddings titleQuery 2))) ∧
      pipe._generate_summary vs ex =
        pipe.llm_provider.generate (summaryPrompt (String.intercalate "\n"
          (vs.similarity_search pipe.embeddings summaryQuery 5))) ∧
      pipe._generate_short_summary vs ex =
        pipe.llm_provider.generate (shortSummaryPrompt (String.intercalate "\n"
          (vs.similarity_search pipe.embeddings shortSummaryQuery 3))) ∧
      pipe._generate_tags vs ex =
        Except.map parse_tags (pipe.llm_provider.generate (tagsPrompt
          (String.intercalate "\n"
            (vs.similarity_search pipe.embeddings tagsQuery 3))))) := by
  refine ⟨⟨?_, ?_, ?_, ?_⟩, rfl, rfl, rfl, ?_⟩
  · rw [similarity_search_length]; omega
  · rw [similarity_search_length]; omega
  · rw [similarity_search_length]; omega
  · rw [similarity_search_length]; omega
  · cases hg : pipe.llm_provider.generate (tagsPrompt (String.intercalate "\n"
      (vs.similarity_search pipe.embeddings tagsQuery 3))) <;>
      simp [PDFAnalysisPipeline._generate_tags, hg, Except.map]

/-- Claim C8, witness at a five-chunk index. -/
theorem c8_aspect_ks_witness :
    (5 ≤ List.length vs5) ∧
      (((vs5.similarity_search pipeOk.embeddings titleQuery 2).length = 2 ∧
        (vs5.similarity_search pipeOk.embeddings summaryQuery 5).length = 5 ∧
        (vs5.similarity_search pipeOk.embeddings shortSummaryQuery 3).length = 3 ∧
        (vs5.similarity_search pipeOk.embeddings tagsQuery 3).length = 3) ∧
      (pipeOk._generate_title vs5 "x" =
          pipeOk.llm_provider.generate (titlePrompt (String.intercalate "\n"
            (vs5.similarity_search pipeOk.embeddings titleQuery 2))) ∧
        pipeOk._generate_summary vs5 "x" =
          pipeOk.llm_provider.generate (summaryPrompt (String.intercalate "\n"
            (vs5.similarity_search pipeOk.embeddings summaryQuery 5))) ∧
        pipeOk._generate_short_summary vs5 "x" =
          pipeOk.llm_provider.generate (shortSummaryPrompt (String.intercalate "\n"
            (vs5.similarity_search pipeOk.embeddings shortSummaryQuery 3))) ∧
        pipeOk._generate_tags vs5 "x" =
          Except.map parse_tags (pipeOk.llm_provider.generate (tagsPrompt
            (String.intercalate "\n"
              (vs5.similarity_search pipeOk.embeddings tagsQuery 3)))))) :=
  ⟨by decide, c8_aspect_ks pipeOk vs5 "x" (by decide)⟩

/-- Claim C9: none of the four aspect extractors depends on the
`example_text` argument (the first page's content): with the same
vector store and the same backend, two calls that differ only in
`example_text` return identical results. -/
theorem c9_example_text_independent (pipe : PDFAnalysisPipeline) (vs : FAISS)
    (ex1 ex2 : String) :
    pipe._generate_title vs ex1 = pipe._generate_title vs ex2 ∧
      pipe._generate_summary vs ex1 = pipe._generate_summary vs ex2 ∧
      pipe._generate_short_summary vs ex1 = pipe._generate_short_summary vs ex2 ∧
      pipe._generate_tags vs ex1 = pipe._generate_tags vs ex2 :=
  ⟨rfl, rfl, rfl, rfl⟩

/-- Claim C10: for every raw backend response the tags parser returns at
least one element, and on the empty string it returns exactly `[""]`,
never the empty list. -/
theorem c10_parser_nonempty :
    (∀ s : String, 1 ≤ (parse_tags s).length) ∧ parse_tags "" = [""] :=
  ⟨fun s => by rw [parse_tags_length]; omega, by decide⟩

end PDFModule
